import Mathlib

/-!
Shallow embedding of the deployment orchestration engine of the
network_device_manager repository (modules/NetworkDeploymentGUI.py,
modules/DeviceModel.py, modules/device_models_db.py, modules/DeviceDialog.py).

Python dictionaries holding device records are embedded as structures whose
possibly-absent keys are `Option` fields; `dict.get(key, default)` becomes
`Option.getD`.  The netmiko connection is embedded as an oracle
(`SessionBehavior`) giving the outcome of each remote call, and the engine
additionally records the sequence of remote calls it performs (`Action` list)
so that ordering properties are observable.  Machine floats produced by
`random.random()` are embedded as rationals.
-/

namespace NetDeploy

/-- Record for one target device, as built by `load_inventory` / `add_device` /
`DeviceDialog.save_device`.  Keys that the code accesses with `dict.get` and
that may be absent (`username`, `password`, `enable`, `port`) are `Option`. -/
structure Device where
  id : Nat
  ip : String
  hostname : String
  model : String
  status : String
  username : Option String
  password : Option String
  enable : Option String
  port : Option Nat
deriving Repr, DecidableEq

/-- Embeds the `DeviceModel` dataclass of modules/DeviceModel.py. -/
structure DeviceModel where
  vendor : String
  model : String
  device_type : String
  default_username : String
  default_password : String
  default_enable : String := ""
  port : Nat := 22
deriving Repr, DecidableEq

/-- Embeds the per-device `result` dictionary built by `deploy_to_device`
(the timestamp field carries no information used by any claim and is
omitted). -/
structure DeployResult where
  device : String
  ip : String
  status : String
  message : String
deriving Repr, DecidableEq

/-- Embeds the `connection_params` dictionary built by `deploy_to_device`
(lines 1334-1346); `global_delay_factor` is a constant and is omitted. -/
structure ConnParams where
  device_type : String
  host : String
  username : String
  password : String
  port : Nat
  timeout : Nat
  secret : Option String
deriving Repr, DecidableEq

/-- Embeds the exceptions a netmiko call can raise: the two named netmiko
exception classes and the catch-all case; each carries its `str(e)`. -/
inductive NetErr where
  | timeout (msg : String)
  | authFailed (msg : String)
  | other (msg : String)
deriving Repr, DecidableEq

/-- Oracle for the outcomes of the remote calls made through a netmiko
connection during one `deploy_to_device` invocation.  `connect` returns, on
success, the value of `check_enable_mode()`. -/
structure SessionBehavior where
  connect : Except NetErr Bool
  enableCall : Except NetErr Unit
  sendConfigSet : List String → Except NetErr String
  sendCommand : String → Except NetErr String
  disconnect : Except NetErr Unit

/-- Remote calls performed by `deploy_to_device` in live mode, recorded in
order so that sequencing properties are observable. -/
inductive Action where
  | connect (params : ConnParams)
  | enable
  | pushConfig (lines : List String)
  | runCommand (cmd : String)
  | disconnect
deriving Repr, DecidableEq

/-- Embeds Python `str.strip()`: removes leading and trailing whitespace
characters.  Written on the character list so that it evaluates by kernel
reduction. -/
def py_strip (s : String) : String :=
  String.mk (((s.data.dropWhile Char.isWhitespace).reverse.dropWhile
    Char.isWhitespace).reverse)

/-- Embeds Python `s.split(c)` for a one-character separator: the pieces
between occurrences of the separator, separators removed, empty pieces
kept. -/
def py_split (s : String) (c : Char) : List String :=
  (s.data.splitOn c).map String.mk

/-- Embeds Python `s.startswith(t)` for a one-character argument `t`. -/
def py_startswith (s : String) (c : Char) : Bool :=
  match s.data with
  | [] => false
  | c0 :: _ => c0 == c

/-- Embeds lines 1360-1361: the comprehension that keeps the stripped form of
every line of the config text that is non-blank once stripped and whose
stripped form does not start with the comment marker. -/
def config_lines (config : String) : List String :=
  ((py_split config '\n').filter
      (fun line => py_strip line != "" && !(py_startswith (py_strip line) '!'))).map py_strip

/-- Statement of the spec sentence for claim C5, written from the spec words:
the lines of the config text that are non-blank after stripping surrounding
whitespace and whose stripped form does not start with the comment marker,
each line stripped, in their original order. -/
def spec_config_lines (config : String) : List String :=
  ((py_split config '\n').filter
      (fun line =>
        decide (¬ py_strip line = "" ∧ ¬ py_startswith (py_strip line) '!' = true))).map
    py_strip

/-- Embeds the `save_commands` dictionary (lines 1367-1376). -/
def save_commands : List (String × String) :=
  [("cisco_ios", "write memory"),
   ("cisco_xe", "write memory"),
   ("cisco_xr", "commit"),
   ("cisco_nxos", "copy running-config startup-config"),
   ("aruba_osswitch", "write memory"),
   ("juniper_junos", "commit"),
   ("huawei", "save"),
   ("fortinet", "end\nconfig system global\nset cfg-save automatic\nend")]

/-- Embeds `save_commands.get(connection_params['device_type'], 'write memory')`
(line 1378). -/
def save_command_for (device_type : String) : String :=
  (save_commands.lookup device_type).getD "write memory"

/-- Embeds the construction of `connection_params` (lines 1334-1346).  The
Python `or` on strings keeps the left operand exactly when it is non-empty;
`secret` is set from the selected model's `default_enable` when that model is
present and its `default_enable` is non-empty. -/
def connection_params (selected_model : Option DeviceModel) (device : Device)
    (username password : String) : ConnParams :=
  { device_type := (selected_model.map DeviceModel.device_type).getD "cisco_ios"
    host := device.ip
    username := if username = "" then device.username.getD "admin" else username
    password := if password = "" then device.password.getD "" else password
    port := device.port.getD 22
    timeout := 30
    secret :=
      match selected_model with
      | some m => if m.default_enable = "" then none else some m.default_enable
      | none => none }

/-- Builds the result dictionary with the device identity fields filled in
(lines 1307-1313 plus the later status/message assignments). -/
def mkResult (device : Device) (status message : String) : DeployResult :=
  { device := device.hostname, ip := device.ip, status := status, message := message }

/-- Embeds the `except` clause of `deploy_to_device` in live mode
(lines 1393-1408): the two named netmiko exceptions map to fixed messages and
every other exception maps to the string "Error: " followed by `str(e)`. -/
def live_error_message : NetErr → String
  | NetErr.timeout _ => "Connection timeout - Device unreachable"
  | NetErr.authFailed _ => "Authentication failed - Check credentials"
  | NetErr.other m => "Error: " ++ m

/-- Embeds lines 1356-1391 of `deploy_to_device`: the part after the
connection is established and enable mode has been entered.  `acts` is the
list of remote calls already performed.  When the filtered config is empty the
function fails without pushing and without disconnecting (the disconnect call
sits inside the non-empty branch in the source). -/
def deployAfterConnect (sb : SessionBehavior) (device : Device) (config : String)
    (device_type : String) (acts : List Action) : DeployResult × List Action :=
  let lines := config_lines config
  if lines.isEmpty then
    (mkResult device "Failed" "No valid configuration lines to deploy", acts)
  else
    match sb.sendConfigSet lines with
    | Except.error e =>
        (mkResult device "Failed" (live_error_message e), acts ++ [Action.pushConfig lines])
    | Except.ok _ =>
        let save_cmd := save_command_for device_type
        match sb.sendCommand save_cmd with
        | Except.error e =>
            (mkResult device "Failed" (live_error_message e),
             acts ++ [Action.pushConfig lines, Action.runCommand save_cmd])
        | Except.ok _ =>
            match sb.disconnect with
            | Except.error e =>
                (mkResult device "Failed" (live_error_message e),
                 acts ++ [Action.pushConfig lines, Action.runCommand save_cmd,
                          Action.disconnect])
            | Except.ok _ =>
                (mkResult device "Success" "Configuration deployed and saved successfully",
                 acts ++ [Action.pushConfig lines, Action.runCommand save_cmd,
                          Action.disconnect])

/-- Embeds the live (netmiko) branch of `deploy_to_device` (lines 1330-1411):
build connection parameters, connect, enter enable mode when
`check_enable_mode()` is false, then push/save/disconnect; every raised
exception is caught and mapped by `live_error_message`. -/
def deployLive (sb : SessionBehavior) (selected_model : Option DeviceModel)
    (device : Device) (config : String) (username password : String) :
    DeployResult × List Action :=
  let params := connection_params selected_model device username password
  match sb.connect with
  | Except.error e =>
      (mkResult device "Failed" (live_error_message e), [Action.connect params])
  | Except.ok enabled =>
      if enabled then
        deployAfterConnect sb device config params.device_type [Action.connect params]
      else
        match sb.enableCall with
        | Except.error e =>
            (mkResult device "Failed" (live_error_message e),
             [Action.connect params, Action.enable])
        | Except.ok _ =>
            deployAfterConnect sb device config params.device_type
              [Action.connect params, Action.enable]

/-- Embeds the demo branch of `deploy_to_device` (lines 1317-1328): no remote
calls, outcome decided by the draw of `random.random()` (embedded as a
rational) compared against 0.1. -/
def deployDemo (device : Device) (draw : ℚ) : DeployResult :=
  if draw > mkRat 1 10 then
    mkResult device "Success" "Configuration deployed successfully (DEMO)"
  else
    mkResult device "Failed" "Connection timeout (DEMO)"

/-- Embeds `deploy_to_device` (lines 1305-1413): the demo branch is taken when
`self.demo_mode` is set or netmiko is unavailable, the live branch otherwise.
The second component is the list of remote calls performed. -/
def deploy_to_device (demo_mode netmiko_available : Bool) (draw : ℚ)
    (sb : SessionBehavior) (selected_model : Option DeviceModel) (device : Device)
    (config : String) (username password : String) : DeployResult × List Action :=
  if demo_mode || !netmiko_available then
    (deployDemo device draw, [])
  else
    deployLive sb selected_model device config username password

/-- Embeds the `self.stats` dictionary.  Fields are integers because the code
updates them with unguarded increments and decrements. -/
structure Stats where
  total : Int
  successful : Int
  failed : Int
  pending : Int
  in_progress : Int
deriving Repr, DecidableEq

/-- Embeds the statistics reset performed by `start_deployment`
(lines 1233-1240). -/
def initial_stats (n : Nat) : Stats :=
  { total := n, successful := 0, failed := 0, pending := n, in_progress := 0 }

/-- Embeds lines 1275-1276: at the start of a per-device step the worker sets
`in_progress` to 1 and decrements `pending`. -/
def stats_begin_device (s : Stats) : Stats :=
  { s with in_progress := 1, pending := s.pending - 1 }

/-- Embeds lines 1283-1287: after the per-device deployment the worker bumps
`successful` or `failed` according to the result status and resets
`in_progress` to 0. -/
def stats_end_device (s : Stats) (success : Bool) : Stats :=
  { s with successful := s.successful + (if success then 1 else 0),
           failed := s.failed + (if success then 0 else 1),
           in_progress := 0 }

/-- Invariant claimed by the spec for the statistics dictionary. -/
def stats_invariant (s : Stats) : Prop :=
  s.successful + s.failed + s.pending + s.in_progress = s.total

instance (s : Stats) : Decidable (stats_invariant s) := by
  unfold stats_invariant
  infer_instance

/-- Events the worker hands back to the UI thread via `self.after`: one result
event per processed device (`_add_deployment_result`), one progress event per
processed device (`overall_progress.set((i+1)/len)` embedded as the pair of
numerator and denominator), and the final invocation of
`_deployment_complete`, which reads the statistics at that moment. -/
inductive Event where
  | result (r : DeployResult)
  | progress (done total : Nat)
  | complete (stats : Stats)
deriving Repr, DecidableEq

/-- Extracts, in order, the deployment results carried by result events. -/
def results_of (events : List Event) : List DeployResult :=
  events.filterMap (fun e => match e with | Event.result r => some r | _ => none)

/-- Embeds the loop body of `_deployment_worker` (lines 1264-1303) over a
fixed device list (the case in which the list object is not mutated in place
while the run is in flight).  `deploy` is the per-device call to
`deploy_to_device` with the run's config and credentials fixed;
`running_at i` is the value of `self.deployment_running` when the loop reads
it at iteration `i`.  Returns the emitted events, the final statistics, and
the statistics snapshots passed to `update_dashboard`, in order. -/
def worker_loop (deploy : Device → DeployResult) (total : Nat)
    (running_at : Nat → Bool) :
    List Device → Nat → Stats → List Event × Stats × List Stats
  | [], _, s => ([Event.complete s], s, [])
  | d :: ds, i, s =>
      if running_at i then
        let s1 := stats_begin_device s
        let r := deploy d
        let s2 := stats_end_device s1 (r.status == "Success")
        let rest := worker_loop deploy total running_at ds (i + 1) s2
        (Event.result r :: Event.progress (i + 1) total :: rest.1,
         rest.2.1, s1 :: s2 :: rest.2.2)
      else ([Event.complete s], s, [])

/-- Output of one worker run. -/
structure WorkerOut where
  events : List Event
  stats : Stats
  snapshots : List Stats
deriving Repr

/-- Runs `_deployment_worker` from the state `start_deployment` sets up:
statistics reset to `initial_stats` and iteration beginning at the head of
the device list. -/
def run_worker (deploy : Device → DeployResult) (devices : List Device)
    (running_at : Nat → Bool) : WorkerOut :=
  let out := worker_loop deploy devices.length running_at devices 0
    (initial_stats devices.length)
  { events := out.1, stats := out.2.1, snapshots := out.2.2 }

/-- Embeds the iteration semantics of `for i, device in enumerate(self.devices)`
when the list object may be mutated in place during the run: the iterator
reads index `i` of the current list contents (`list_at i`) and stops at the
first index that is out of bounds.  `fuel` bounds the number of iterations
(sufficient whenever it is at least the final list length).  Returns the
results of the processed devices in processing order. -/
def worker_iter (deploy : Device → DeployResult) (list_at : Nat → List Device)
    (running_at : Nat → Bool) : Nat → Nat → List DeployResult
  | 0, _ => []
  | fuel + 1, i =>
      match (list_at i)[i]? with
      | some d =>
          if running_at i then
            deploy d :: worker_iter deploy list_at running_at fuel (i + 1)
          else []
      | none => []

/-- Row of the devices treeview as inserted by `load_inventory` / `add_device`
(columns ip, hostname, model, status, username). -/
structure TreeRow where
  ip : String
  hostname : String
  model : String
  status : String
  username : String
deriving Repr, DecidableEq

/-- Values a device record shows in its treeview row. -/
def tree_row_of (d : Device) : TreeRow :=
  { ip := d.ip, hostname := d.hostname, model := d.model, status := d.status,
    username := d.username.getD "" }

/-- Sequence of devices left after removing the selected ones (selection given
as a predicate on list positions). -/
def remaining_devices (devices : List Device) (deleted : Nat → Bool) : List Device :=
  (devices.enum.filter (fun p => !(deleted p.1))).map Prod.snd

/-- Embeds one iteration of the rebuild loop of `delete_device`
(lines 1057-1068): a fresh record whose id is the new position plus one,
whose displayed columns come from the treeview row, whose password is the
current contents of the session-wide password field, and which carries no
enable-password and no port key. -/
def rebuild_device (j : Nat) (row : TreeRow) (session_password : String) : Device :=
  { id := j + 1, ip := row.ip, hostname := row.hostname, model := row.model,
    status := row.status, username := some row.username,
    password := some session_password, enable := none, port := none }

/-- Embeds `delete_device` (lines 1045-1073): the selected rows are removed
from the tree and the whole device list is rebuilt from the remaining rows. -/
def delete_device (devices : List Device) (deleted : Nat → Bool)
    (session_password : String) : List Device :=
  (((remaining_devices devices deleted).map tree_row_of).enum).map
    (fun p => rebuild_device p.1 p.2 session_password)

/-- Concrete device fixture used by witnesses and counterexamples. -/
def devA : Device :=
  { id := 1, ip := "10.1.1.1", hostname := "SW1", model := "Cisco Catalyst 9300",
    status := "Ready", username := some "admin", password := some "pw",
    enable := none, port := none }

/-- Second concrete device fixture. -/
def devB : Device := { devA with id := 2, ip := "10.1.1.2", hostname := "SW2" }

/-- Third concrete device fixture. -/
def devC : Device := { devA with id := 3, ip := "10.1.1.3", hostname := "SW3" }

/-- Device fixture carrying a full set of its own credentials. -/
def devCreds : Device :=
  { id := 1, ip := "10.1.1.9", hostname := "SW9", model := "Cisco Catalyst 9300",
    status := "Ready", username := some "devuser", password := some "devpw",
    enable := some "deven", port := some 2222 }

/-- Embeds the "Cisco Catalyst 9300" registry entry of device_models_db.py
(icon and capabilities carry no engine-relevant information and are
omitted). -/
def catalyst9300 : DeviceModel :=
  { vendor := "Cisco", model := "Catalyst 9300", device_type := "cisco_ios",
    default_username := "admin", default_password := "admin",
    default_enable := "cisco" }

/-- Session oracle in which every remote call succeeds and the connection is
already in enable mode. -/
def sbAllOk : SessionBehavior :=
  { connect := Except.ok true, enableCall := Except.ok (),
    sendConfigSet := fun _ => Except.ok "", sendCommand := fun _ => Except.ok "",
    disconnect := Except.ok () }

/-- Session oracle whose connect raises an exception that is neither of the
two named netmiko exception classes. -/
def sbOtherErr : SessionBehavior :=
  { sbAllOk with connect := Except.error (NetErr.other "boom") }

theorem deployAfterConnect_actions (sb : SessionBehavior) (device : Device)
    (config dt : String) (acts : List Action) :
    ∃ suffix : List Action,
      (deployAfterConnect sb device config dt acts).2 = acts ++ suffix ∧
      ∀ a ∈ suffix, a = Action.pushConfig (config_lines config) ∨
        a = Action.runCommand (save_command_for dt) ∨ a = Action.disconnect := by
  by_cases hemp : (config_lines config).isEmpty
  · refine ⟨[], ?_, by simp⟩
    simp [deployAfterConnect, hemp]
  · cases hsc : sb.sendConfigSet (config_lines config) with
    | error e =>
        refine ⟨[Action.pushConfig (config_lines config)], ?_, ?_⟩
        · simp [deployAfterConnect, hemp, hsc]
        · intro a ha; simp at ha; simp [ha]
    | ok o =>
        cases hcmd : sb.sendCommand (save_command_for dt) with
        | error e =>
            refine ⟨[Action.pushConfig (config_lines config),
                     Action.runCommand (save_command_for dt)], ?_, ?_⟩
            · simp [deployAfterConnect, hemp, hsc, hcmd]
            · intro a ha; simp at ha; rcases ha with h | h <;> simp [h]
        | ok o2 =>
            cases hd : sb.disconnect with
            | error e =>
                refine ⟨[Action.pushConfig (config_lines config),
                         Action.runCommand (save_command_for dt), Action.disconnect],
                        ?_, ?_⟩
                · simp [deployAfterConnect, hemp, hsc, hcmd, hd]
                · intro a ha; simp at ha; rcases ha with h | h | h <;> simp [h]
            | ok u =>
                refine ⟨[Action.pushConfig (config_lines config),
                         Action.runCommand (save_command_for dt), Action.disconnect],
                        ?_, ?_⟩
                · simp [deployAfterConnect, hemp, hsc, hcmd, hd]
                · intro a ha; simp at ha; rcases ha with h | h | h <;> simp [h]

theorem deployLive_mem_classify (sb : SessionBehavior) (model : Option DeviceModel)
    (device : Device) (config u p : String) (a : Action)
    (h : a ∈ (deployLive sb model device config u p).2) :
    a = Action.connect (connection_params model device u p) ∨ a = Action.enable ∨
    a = Action.pushConfig (config_lines config) ∨
    a = Action.runCommand
        (save_command_for (connection_params model device u p).device_type) ∨
    a = Action.disconnect := by
  cases hconn : sb.connect with
  | error e =>
      simp [deployLive, hconn] at h
      simp [h]
  | ok enabled =>
      cases enabled with
      | true =>
          simp only [deployLive, hconn] at h
          rw [if_pos trivial] at h
          obtain ⟨suffix, hacts, hall⟩ := deployAfterConnect_actions sb device config
            (connection_params model device u p).device_type
            [Action.connect (connection_params model device u p)]
          rw [hacts] at h
          rcases List.mem_append.1 h with h1 | h2
          · simp at h1; simp [h1]
          · rcases hall a h2 with hx | hx | hx <;> simp [hx]
      | false =>
          cases henc : sb.enableCall with
          | error e =>
              simp [deployLive, hconn, henc] at h
              rcases h with h | h <;> simp [h]
          | ok uu =>
              simp only [deployLive, hconn, henc] at h
              rw [if_neg (by simp)] at h
              obtain ⟨suffix, hacts, hall⟩ := deployAfterConnect_actions sb device config
                (connection_params model device u p).device_type
                [Action.connect (connection_params model device u p), Action.enable]
              rw [hacts] at h
              rcases List.mem_append.1 h with h1 | h2
              · simp at h1; rcases h1 with h1 | h1 <;> simp [h1]
              · rcases hall a h2 with hx | hx | hx <;> simp [hx]

theorem config_lines_eq_spec (config : String) :
    config_lines config = spec_config_lines config := by
  unfold config_lines spec_config_lines
  congr 1
  apply List.filter_congr
  intro x _
  by_cases h1 : py_strip x = "" <;> by_cases h2 : py_startswith (py_strip x) '!' = true <;>
    simp [bne_iff_ne, h1, h2]

theorem deployAfterConnect_status (sb : SessionBehavior) (device : Device)
    (config dt : String) (acts : List Action) :
    (deployAfterConnect sb device config dt acts).1.status = "Success" ∨
    (deployAfterConnect sb device config dt acts).1.status = "Failed" := by
  by_cases hemp : (config_lines config).isEmpty
  · simp [deployAfterConnect, hemp, mkResult]
  · cases hsc : sb.sendConfigSet (config_lines config) with
    | error e => simp [deployAfterConnect, hemp, hsc, mkResult]
    | ok o =>
        cases hcmd : sb.sendCommand (save_command_for dt) with
        | error e => simp [deployAfterConnect, hemp, hsc, hcmd, mkResult]
        | ok o2 =>
            cases hd : sb.disconnect with
            | error e => simp [deployAfterConnect, hemp, hsc, hcmd, hd, mkResult]
            | ok u => simp [deployAfterConnect, hemp, hsc, hcmd, hd, mkResult]

theorem deployLive_status (sb : SessionBehavior) (model : Option DeviceModel)
    (device : Device) (config u p : String) :
    (deployLive sb model device config u p).1.status = "Success" ∨
    (deployLive sb model device config u p).1.status = "Failed" := by
  cases hconn : sb.connect with
  | error e => simp [deployLive, hconn, mkResult]
  | ok enabled =>
      cases enabled with
      | true =>
          simp only [deployLive, hconn]
          rw [if_pos trivial]
          exact deployAfterConnect_status sb device config _ _
      | false =>
          cases henc : sb.enableCall with
          | error e => simp [deployLive, hconn, henc, mkResult]
          | ok uu =>
              simp only [deployLive, hconn, henc]
              rw [if_neg (by simp)]
              exact deployAfterConnect_status sb device config _ _

/-- C5: in live mode the sequence of configuration lines pushed to a device is
exactly the lines of the config text that are non-blank after stripping
surrounding whitespace and whose stripped form does not start with the comment
marker, each line stripped, in their original order. -/
theorem c5_live_pushed_lines (sb : SessionBehavior) (model : Option DeviceModel)
    (device : Device) (config u p : String) :
    config_lines config = spec_config_lines config ∧
    ∀ ls, Action.pushConfig ls ∈ (deployLive sb model device config u p).2 →
      ls = spec_config_lines config := by
  refine ⟨config_lines_eq_spec config, ?_⟩
  intro ls h
  rcases deployLive_mem_classify sb model device config u p _ h with hx | hx | hx | hx | hx
  · exact absurd hx (by simp)
  · exact absurd hx (by simp)
  · simp only [Action.pushConfig.injEq] at hx
    rw [hx, config_lines_eq_spec]
  · exact absurd hx (by simp)
  · exact absurd hx (by simp)

/-- Witness for C5: a concrete live run in which the push happens, with the
comment and blank lines removed. -/
theorem c5_live_pushed_lines_witness :
    Action.pushConfig ["hostname SW1", "vlan 10"] ∈
      (deployLive sbAllOk none devA "hostname SW1\n! comment\nvlan 10" "" "").2 ∧
    ["hostname SW1", "vlan 10"] = spec_config_lines "hostname SW1\n! comment\nvlan 10" :=
  ⟨by decide,
   (c5_live_pushed_lines sbAllOk none devA "hostname SW1\n! comment\nvlan 10" "" "").2
     ["hostname SW1", "vlan 10"] (by decide)⟩

theorem stats_begin_device_inv (s : Stats) (h : stats_invariant s)
    (hip : s.in_progress = 0) : stats_invariant (stats_begin_device s) := by
  unfold stats_invariant at h
  show s.successful + s.failed + (s.pending - 1) + 1 = s.total
  omega

theorem stats_end_device_inv (s : Stats) (b : Bool) (h : stats_invariant s)
    (hip : s.in_progress = 1) :
    stats_invariant (stats_end_device s b) ∧ (stats_end_device s b).in_progress = 0 := by
  refine ⟨?_, rfl⟩
  unfold stats_invariant at h
  cases b
  · show s.successful + 0 + (s.failed + 1) + s.pending + 0 = s.total
    omega
  · show s.successful + 1 + (s.failed + 0) + s.pending + 0 = s.total
    omega

theorem worker_loop_snapshots_inv (deploy : Device → DeployResult) (total : Nat)
    (ra : Nat → Bool) :
    ∀ (ds : List Device) (i : Nat) (s : Stats),
      stats_invariant s → s.in_progress = 0 →
      ∀ t ∈ (worker_loop deploy total ra ds i s).2.2, stats_invariant t := by
  intro ds
  induction ds with
  | nil =>
      intro i s hs hip t ht
      simp [worker_loop] at ht
  | cons d ds ih =>
      intro i s hs hip t ht
      by_cases hr : ra i = true
      · simp only [worker_loop, hr, if_true] at ht
        have h1 := stats_begin_device_inv s hs hip
        have hip1 : (stats_begin_device s).in_progress = 1 := rfl
        have h2 := stats_end_device_inv (stats_begin_device s)
          ((deploy d).status == "Success") h1 hip1
        rcases List.mem_cons.1 ht with rfl | ht
        · exact h1
        · rcases List.mem_cons.1 ht with rfl | ht
          · exact h2.1
          · exact ih (i + 1) _ h2.1 h2.2 t ht
      · have hr' : ra i = false := by simpa using hr
        simp [worker_loop, hr'] at ht

theorem worker_loop_no_stop (deploy : Device → DeployResult) (total : Nat)
    (ra : Nat → Bool) (hra : ∀ i, ra i = true) :
    ∀ (ds : List Device) (i : Nat) (s : Stats),
      (results_of (worker_loop deploy total ra ds i s).1).length = ds.length ∧
      (worker_loop deploy total ra ds i s).2.1.successful +
          (worker_loop deploy total ra ds i s).2.1.failed =
        s.successful + s.failed + ds.length ∧
      (worker_loop deploy total ra ds i s).2.1.total = s.total := by
  intro ds
  induction ds with
  | nil =>
      intro i s
      simp [worker_loop, results_of]
  | cons d ds ih =>
      intro i s
      simp only [worker_loop, hra i, if_true]
      obtain ⟨h1, h2, h3⟩ := ih (i + 1)
        (stats_end_device (stats_begin_device s) ((deploy d).status == "Success"))
      have hsum : (stats_end_device (stats_begin_device s)
            ((deploy d).status == "Success")).successful +
          (stats_end_device (stats_begin_device s)
            ((deploy d).status == "Success")).failed =
          s.successful + s.failed + 1 := by
        cases hb : ((deploy d).status == "Success")
        · show s.successful + 0 + (s.failed + 1) = s.successful + s.failed + 1
          omega
        · show s.successful + 1 + (s.failed + 0) = s.successful + s.failed + 1
          omega
      have htot : (stats_end_device (stats_begin_device s)
          ((deploy d).status == "Success")).total = s.total := rfl
      refine ⟨?_, ?_, ?_⟩
      · simp only [results_of, List.filterMap_cons] at h1 ⊢
        simp only [List.length_cons, List.length]
        omega
      · rw [h2, hsum]
        push_cast [List.length_cons]
        ring
      · rw [h3, htot]

theorem worker_loop_results_stop (deploy : Device → DeployResult) (total : Nat)
    (ra : Nat → Bool) (k : Nat) (hra : ∀ i, ra i = decide (i < k)) :
    ∀ (ds : List Device) (i : Nat) (s : Stats),
      results_of (worker_loop deploy total ra ds i s).1 =
        (ds.take (k - i)).map deploy := by
  intro ds
  induction ds with
  | nil =>
      intro i s
      simp [worker_loop, results_of]
  | cons d ds ih =>
      intro i s
      by_cases hik : i < k
      · have hr : ra i = true := by rw [hra i]; exact decide_eq_true hik
        have htake : (d :: ds).take (k - i) = d :: ds.take (k - (i + 1)) := by
          have hki : k - i = (k - (i + 1)) + 1 := by omega
          rw [hki, List.take_succ_cons]
        simp only [worker_loop, hr, if_true, htake]
        simp only [results_of, List.filterMap_cons] at ih ⊢
        simpa using ih (i + 1) _
      · have hr : ra i = false := by rw [hra i]; simpa using hik
        have hki : k - i = 0 := by omega
        simp [worker_loop, hr, results_of, hki]

theorem worker_loop_complete_event (deploy : Device → DeployResult) (total : Nat)
    (ra : Nat → Bool) :
    ∀ (ds : List Device) (i : Nat) (s : Stats),
      ∃ es, (worker_loop deploy total ra ds i s).1 =
        es ++ [Event.complete (worker_loop deploy total ra ds i s).2.1] := by
  intro ds
  induction ds with
  | nil =>
      intro i s
      exact ⟨[], by simp [worker_loop]⟩
  | cons d ds ih =>
      intro i s
      by_cases hr : ra i = true
      · obtain ⟨es, hes⟩ := ih (i + 1)
          (stats_end_device (stats_begin_device s) ((deploy d).status == "Success"))
        refine ⟨Event.result (deploy d) :: Event.progress (i + 1) total :: es, ?_⟩
        simp only [worker_loop, hr, if_true]
        rw [hes]
        rfl
      · have hr' : ra i = false := by simpa using hr
        exact ⟨[], by simp [worker_loop, hr']⟩

theorem worker_iter_fixed (deploy : Device → DeployResult) (devices : List Device)
    (list_at : Nat → List Device) (ra : Nat → Bool)
    (hl : ∀ i, list_at i = devices) (hra : ∀ i, ra i = true) :
    ∀ (fuel i : Nat), devices.length ≤ i + fuel →
      worker_iter deploy list_at ra fuel i = (devices.drop i).map deploy := by
  intro fuel
  induction fuel with
  | zero =>
      intro i hlen
      have hle : devices.length ≤ i := by omega
      simp [worker_iter, List.drop_eq_nil_of_le hle]
  | succ fuel ih =>
      intro i hlen
      by_cases hi : i < devices.length
      · have hget : (list_at i)[i]? = some devices[i] := by
          rw [hl i]
          exact List.getElem?_eq_getElem hi
        simp only [worker_iter, hget, hra i, if_true]
        rw [ih (i + 1) (by omega), List.drop_eq_getElem_cons hi, List.map_cons]
      · have hget : (list_at i)[i]? = none := by
          rw [hl i]
          exact List.getElem?_eq_none (by omega)
        simp only [worker_iter, hget]
        rw [List.drop_eq_nil_of_le (by omega)]
        rfl

/-- C1: during a run the statistics invariant `successful + failed + pending +
in_progress = total` holds immediately after the reset done at start and after
every dashboard update the worker performs, and in a run in which the flag is
never cleared, `successful + failed` equals the number of result events
emitted and equals `total`. -/
theorem c1_stats_accounting (deploy : Device → DeployResult) (devices : List Device)
    (running_at : Nat → Bool) :
    stats_invariant (initial_stats devices.length) ∧
    (∀ t ∈ (run_worker deploy devices running_at).snapshots, stats_invariant t) ∧
    ((∀ i, running_at i = true) →
      (run_worker deploy devices running_at).stats.successful +
          (run_worker deploy devices running_at).stats.failed =
        ((results_of (run_worker deploy devices running_at).events).length : Int) ∧
      (run_worker deploy devices running_at).stats.successful +
          (run_worker deploy devices running_at).stats.failed =
        (run_worker deploy devices running_at).stats.total) := by
  have hinv : stats_invariant (initial_stats devices.length) := by
    show (0 : Int) + 0 + devices.length + 0 = devices.length
    omega
  refine ⟨hinv, ?_, ?_⟩
  · intro t ht
    exact worker_loop_snapshots_inv deploy devices.length running_at devices 0
      (initial_stats devices.length) hinv rfl t ht
  · intro hra
    obtain ⟨h1, h2, h3⟩ := worker_loop_no_stop deploy devices.length running_at hra
      devices 0 (initial_stats devices.length)
    simp only [run_worker]
    constructor
    · rw [h2, h1]
      simp [initial_stats]
    · rw [h2, h3]
      simp [initial_stats]

/-- Witness for C1 at a two-device run that never stops. -/
theorem c1_stats_accounting_witness :
    (∀ t ∈ (run_worker (fun d => mkResult d "Success" "ok") [devA, devB]
        (fun _ => true)).snapshots, stats_invariant t) ∧
    (run_worker (fun d => mkResult d "Success" "ok") [devA, devB]
        (fun _ => true)).stats.successful +
      (run_worker (fun d => mkResult d "Success" "ok") [devA, devB]
        (fun _ => true)).stats.failed =
      ((results_of (run_worker (fun d => mkResult d "Success" "ok") [devA, devB]
        (fun _ => true)).events).length : Int) :=
  ⟨(c1_stats_accounting (fun d => mkResult d "Success" "ok") [devA, devB]
      (fun _ => true)).2.1,
   ((c1_stats_accounting (fun d => mkResult d "Success" "ok") [devA, devB]
      (fun _ => true)).2.2 (fun _ => rfl)).1⟩

/-- C2 (amended): if the running flag is cleared after the k-th device's
result is recorded and before device k+1 is processed, the run yields exactly
the results of the first k devices, in order, and devices k+1 onward are never
processed; however the worker then schedules the same completion handler as a
full run, so the terminal event is the completion summary in both cases. -/
theorem c2_stop_boundary (deploy : Device → DeployResult) (devices : List Device)
    (running_at : Nat → Bool) (k : Nat)
    (hra : ∀ i, running_at i = decide (i < k)) (hk : k ≤ devices.length) :
    results_of (run_worker deploy devices running_at).events =
      (devices.take k).map deploy ∧
    (results_of (run_worker deploy devices running_at).events).length = k ∧
    ∃ es, (run_worker deploy devices running_at).events =
      es ++ [Event.complete (run_worker deploy devices running_at).stats] := by
  have hres := worker_loop_results_stop deploy devices.length running_at k hra
    devices 0 (initial_stats devices.length)
  have htake : k - 0 = k := by omega
  rw [htake] at hres
  refine ⟨hres, ?_, ?_⟩
  · rw [show results_of (run_worker deploy devices running_at).events =
      results_of (worker_loop deploy devices.length running_at devices 0
        (initial_stats devices.length)).1 from rfl, hres]
    rw [List.length_map, List.length_take]
    omega
  · exact worker_loop_complete_event deploy devices.length running_at devices 0
      (initial_stats devices.length)

/-- Counterexample to C2 as stated: in a two-device run stopped after the
first device, exactly one result is emitted, yet a completion event is still
emitted — the code schedules `_deployment_complete` unconditionally after the
loop, so the run does not end in a distinct stopped state. -/
theorem c2_stop_counterexample :
    (results_of (run_worker (fun d => mkResult d "Success" "ok") [devA, devB]
        (fun i => decide (i < 1))).events).length = 1 ∧
    Event.complete (run_worker (fun d => mkResult d "Success" "ok") [devA, devB]
        (fun i => decide (i < 1))).stats ∈
      (run_worker (fun d => mkResult d "Success" "ok") [devA, devB]
        (fun i => decide (i < 1))).events := by
  decide

/-- Witness for C2 at a concrete stop-after-one run over two devices. -/
theorem c2_stop_boundary_witness :
    results_of (run_worker (fun d => mkResult d "Success" "ok") [devA, devB]
        (fun i => decide (i < 1))).events =
      ([devA, devB].take 1).map (fun d => mkResult d "Success" "ok") ∧
    (results_of (run_worker (fun d => mkResult d "Success" "ok") [devA, devB]
        (fun i => decide (i < 1))).events).length = 1 :=
  ⟨(c2_stop_boundary (fun d => mkResult d "Success" "ok") [devA, devB]
      (fun i => decide (i < 1)) 1 (fun _ => rfl) (by decide)).1,
   (c2_stop_boundary (fun d => mkResult d "Success" "ok") [devA, devB]
      (fun i => decide (i < 1)) 1 (fun _ => rfl) (by decide)).2.1⟩

/-- C3 (amended): the worker iterates the list object bound when the loop
starts rather than a snapshot; when the list is not mutated in place during
the run (and the flag is never cleared) the devices are processed strictly in
list order and the results appear in that same order, but an in-place
mutation of the list during the run does change which devices are
processed. -/
theorem c3_iteration_order (deploy : Device → DeployResult) (devices : List Device)
    (list_at : Nat → List Device) (running_at : Nat → Bool) (fuel : Nat)
    (hl : ∀ i, list_at i = devices) (hra : ∀ i, running_at i = true)
    (hfuel : devices.length ≤ fuel) :
    worker_iter deploy list_at running_at fuel 0 = devices.map deploy := by
  have h := worker_iter_fixed deploy devices list_at running_at hl hra fuel 0
    (by omega)
  simpa using h

/-- Counterexample to C3 as stated: a device appended in place after the
first per-device step is picked up by the in-flight run, so the processed
sequence does not match the two-device list present when the run started. -/
theorem c3_no_snapshot_counterexample :
    worker_iter (fun d => mkResult d "Success" "ok")
        (fun i => if i = 0 then [devA, devB] else [devA, devB, devC])
        (fun _ => true) 5 0 ≠
      [devA, devB].map (fun d => mkResult d "Success" "ok") ∧
    (worker_iter (fun d => mkResult d "Success" "ok")
        (fun i => if i = 0 then [devA, devB] else [devA, devB, devC])
        (fun _ => true) 5 0).length = 3 := by
  decide

/-- Witness for C3 at a concrete unmutated two-device run. -/
theorem c3_iteration_order_witness :
    worker_iter (fun d => mkResult d "Success" "ok") (fun _ => [devA, devB])
        (fun _ => true) 2 0 =
      [devA, devB].map (fun d => mkResult d "Success" "ok") :=
  c3_iteration_order (fun d => mkResult d "Success" "ok") [devA, devB]
    (fun _ => [devA, devB]) (fun _ => true) 2 (fun _ => rfl) (fun _ => rfl)
    (by decide)

/-- C4 (amended): in live mode a connect timeout yields a Failed result with
message "Connection timeout - Device unreachable", an authentication failure
yields "Authentication failed - Check credentials", and any other error
yields "Error: " followed by the raw error text; the per-device call always
returns a Success or Failed result rather than raising, and in a run that is
never stopped every device still yields a result. -/
theorem c4_error_handling (sb : SessionBehavior) (model : Option DeviceModel)
    (device : Device) (config u p m : String) :
    ((deployLive sb model device config u p).1.status = "Success" ∨
     (deployLive sb model device config u p).1.status = "Failed") ∧
    (sb.connect = Except.error (NetErr.timeout m) →
      (deployLive sb model device config u p).1.status = "Failed" ∧
      (deployLive sb model device config u p).1.message =
        "Connection timeout - Device unreachable") ∧
    (sb.connect = Except.error (NetErr.authFailed m) →
      (deployLive sb model device config u p).1.status = "Failed" ∧
      (deployLive sb model device config u p).1.message =
        "Authentication failed - Check credentials") ∧
    (sb.connect = Except.error (NetErr.other m) →
      (deployLive sb model device config u p).1.status = "Failed" ∧
      (deployLive sb model device config u p).1.message = "Error: " ++ m) ∧
    (∀ (deploy : Device → DeployResult) (devices : List Device) (ra : Nat → Bool),
      (∀ i, ra i = true) →
      (results_of (run_worker deploy devices ra).events).length = devices.length) := by
  refine ⟨deployLive_status sb model device config u p, ?_, ?_, ?_, ?_⟩
  · intro h
    simp [deployLive, h, live_error_message, mkResult]
  · intro h
    simp [deployLive, h, live_error_message, mkResult]
  · intro h
    simp [deployLive, h, live_error_message, mkResult]
  · intro deploy devices ra hra
    exact (worker_loop_no_stop deploy devices.length ra hra devices 0
      (initial_stats devices.length)).1

/-- Counterexample to C4 as stated: an unrecognized connect error with raw
text "boom" yields the message "Error: boom", not the raw message itself. -/
theorem c4_error_prefix_counterexample :
    (deployLive sbOtherErr none devA "hostname SW1" "" "").1.message =
      "Error: boom" ∧
    (deployLive sbOtherErr none devA "hostname SW1" "" "").1.message ≠ "boom" := by
  decide

/-- Witness for C4 at a concrete timed-out connect. -/
theorem c4_error_handling_witness :
    (deployLive { sbAllOk with
        connect := Except.error (NetErr.timeout "t") } none devA "x" "" "").1.status =
      "Failed" ∧
    (deployLive { sbAllOk with
        connect := Except.error (NetErr.timeout "t") } none devA "x" "" "").1.message =
      "Connection timeout - Device unreachable" :=
  (c4_error_handling { sbAllOk with connect := Except.error (NetErr.timeout "t") }
    none devA "x" "" "" "t").2.1 rfl

/-- C6: in live mode, when every line of the config text is blank once
stripped or starts with the comment marker, the result is Failed with message
"No valid configuration lines to deploy"; the check happens only after a
successful connect (the connect call is in the recorded actions) and nothing
is ever pushed. -/
theorem c6_empty_config (sb : SessionBehavior) (model : Option DeviceModel)
    (device : Device) (config u p : String) (b : Bool)
    (hconn : sb.connect = Except.ok b)
    (hen : b = false → sb.enableCall = Except.ok ())
    (hempty : ∀ line ∈ py_split config '\n',
      py_strip line = "" ∨ py_startswith (py_strip line) '!' = true) :
    (deployLive sb model device config u p).1.status = "Failed" ∧
    (deployLive sb model device config u p).1.message =
      "No valid configuration lines to deploy" ∧
    Action.connect (connection_params model device u p) ∈
      (deployLive sb model device config u p).2 ∧
    ∀ ls, Action.pushConfig ls ∉ (deployLive sb model device config u p).2 := by
  have hnil : config_lines config = [] := by
    unfold config_lines
    rw [List.map_eq_nil_iff]
    rw [List.filter_eq_nil_iff]
    intro a ha
    rcases hempty a ha with h | h
    · simp [h]
    · simp [h]
  have hemp : (config_lines config).isEmpty := by rw [hnil]; rfl
  cases b with
  | true =>
      simp only [deployLive, hconn]
      rw [if_pos trivial]
      simp [deployAfterConnect, hemp, mkResult]
  | false =>
      have henc := hen rfl
      simp only [deployLive, hconn, henc]
      rw [if_neg (by simp)]
      simp [deployAfterConnect, hemp, mkResult]

/-- Witness for C6 at a concrete comment-and-blank-only config. -/
theorem c6_empty_config_witness :
    (deployLive sbAllOk none devA "! comment\n   \n!" "" "").1.status = "Failed" ∧
    (deployLive sbAllOk none devA "! comment\n   \n!" "" "").1.message =
      "No valid configuration lines to deploy" ∧
    Action.connect (connection_params none devA "" "") ∈
      (deployLive sbAllOk none devA "! comment\n   \n!" "" "").2 ∧
    ∀ ls, Action.pushConfig ls ∉
      (deployLive sbAllOk none devA "! comment\n   \n!" "" "").2 :=
  c6_empty_config sbAllOk none devA "! comment\n   \n!" "" "" true rfl
    (fun h => by cases h) (by decide)

/-- C7: the save command executed after a push is selected by the
session-type tag exactly as the table states, any unrecognized tag falls back
to "write memory", and every save command the live path runs is the one
selected for the connection's device type. -/
theorem c7_save_command (dt : String) :
    save_command_for "cisco_ios" = "write memory" ∧
    save_command_for "cisco_xe" = "write memory" ∧
    save_command_for "cisco_xr" = "commit" ∧
    save_command_for "cisco_nxos" = "copy running-config startup-config" ∧
    save_command_for "aruba_osswitch" = "write memory" ∧
    save_command_for "juniper_junos" = "commit" ∧
    save_command_for "huawei" = "save" ∧
    save_command_for "fortinet" = "end\nconfig system global\nset cfg-save automatic\nend" ∧
    (dt ≠ "cisco_ios" → dt ≠ "cisco_xe" → dt ≠ "cisco_xr" → dt ≠ "cisco_nxos" →
      dt ≠ "aruba_osswitch" → dt ≠ "juniper_junos" → dt ≠ "huawei" →
      dt ≠ "fortinet" → save_command_for dt = "write memory") ∧
    (∀ (sb : SessionBehavior) (model : Option DeviceModel) (device : Device)
        (config u p c : String),
      Action.runCommand c ∈ (deployLive sb model device config u p).2 →
      c = save_command_for (connection_params model device u p).device_type) := by
  refine ⟨by decide, by decide, by decide, by decide, by decide, by decide, by decide,
    by decide, ?_, ?_⟩
  · intro h1 h2 h3 h4 h5 h6 h7 h8
    have e1 : (dt == "cisco_ios") = false := by simp [h1]
    have e2 : (dt == "cisco_xe") = false := by simp [h2]
    have e3 : (dt == "cisco_xr") = false := by simp [h3]
    have e4 : (dt == "cisco_nxos") = false := by simp [h4]
    have e5 : (dt == "aruba_osswitch") = false := by simp [h5]
    have e6 : (dt == "juniper_junos") = false := by simp [h6]
    have e7 : (dt == "huawei") = false := by simp [h7]
    have e8 : (dt == "fortinet") = false := by simp [h8]
    simp [save_command_for, save_commands, List.lookup, e1, e2, e3, e4, e5, e6, e7, e8]
  · intro sb model device config u p c h
    rcases deployLive_mem_classify sb model device config u p _ h with
      hx | hx | hx | hx | hx
    · exact absurd hx (by simp)
    · exact absurd hx (by simp)
    · exact absurd hx (by simp)
    · simpa using hx
    · exact absurd hx (by simp)

/-- Witness for C7: an unlisted session type falls back to "write memory",
and in a concrete run the executed save command is the one selected for the
default device type. -/
theorem c7_save_command_witness :
    save_command_for "arista_eos" = "write memory" ∧
    "write memory" = save_command_for (connection_params none devA "" "").device_type :=
  ⟨(c7_save_command "arista_eos").2.2.2.2.2.2.2.2.1 (by decide) (by decide)
      (by decide) (by decide) (by decide) (by decide) (by decide) (by decide),
   (c7_save_command "arista_eos").2.2.2.2.2.2.2.2.2 sbAllOk none devA
      "hostname SW1" "" "" "write memory" (by decide)⟩

/-- C8 (amended): for each of username and password, the session-wide value
is used when it is non-empty and the device record's own value (with default
"admin" resp. "") only when the session-wide value is empty — the opposite
precedence of the claim; the enable secret is the selected vendor profile's
default enable password and never comes from the device record; the port is
the device's own with default 22. -/
theorem c8_credential_resolution (model : Option DeviceModel) (device : Device)
    (u p : String) :
    (u ≠ "" → (connection_params model device u p).username = u) ∧
    (u = "" →
      (connection_params model device u p).username = device.username.getD "admin") ∧
    (p ≠ "" → (connection_params model device u p).password = p) ∧
    (p = "" →
      (connection_params model device u p).password = device.password.getD "") ∧
    ((connection_params model device u p).secret = none ∨
      ∃ m, model = some m ∧
        (connection_params model device u p).secret = some m.default_enable) ∧
    (connection_params model device u p).port = device.port.getD 22 := by
  refine ⟨?_, ?_, ?_, ?_, ?_, rfl⟩
  · intro h; simp [connection_params, h]
  · intro h; simp [connection_params, h]
  · intro h; simp [connection_params, h]
  · intro h; simp [connection_params, h]
  · cases model with
    | none => exact Or.inl rfl
    | some m =>
        by_cases he : m.default_enable = ""
        · exact Or.inl (by simp [connection_params, he])
        · exact Or.inr ⟨m, rfl, by simp [connection_params, he]⟩

/-- Counterexample to C8 as stated: the device record carries its own
username, password and enable password, yet the non-empty session-wide
username and password win, and the enable secret is taken from the vendor
profile rather than from the device record. -/
theorem c8_precedence_counterexample :
    devCreds.username = some "devuser" ∧
    (connection_params (some catalyst9300) devCreds "sessuser" "sesspw").username =
      "sessuser" ∧
    "sessuser" ≠ "devuser" ∧
    devCreds.password = some "devpw" ∧
    (connection_params (some catalyst9300) devCreds "sessuser" "sesspw").password =
      "sesspw" ∧
    "sesspw" ≠ "devpw" ∧
    devCreds.enable = some "deven" ∧
    (connection_params (some catalyst9300) devCreds "sessuser" "sesspw").secret =
      some "cisco" := by
  decide

/-- Witness for C8 at concrete empty and non-empty session credentials. -/
theorem c8_credential_resolution_witness :
    (connection_params (some catalyst9300) devCreds "sessuser" "").username =
      "sessuser" ∧
    (connection_params (some catalyst9300) devCreds "" "sesspw").username =
      "devuser" :=
  ⟨(c8_credential_resolution (some catalyst9300) devCreds "sessuser" "").1
      (by decide),
   (c8_credential_resolution (some catalyst9300) devCreds "" "sesspw").2.1 rfl⟩

/-- C9: deleting selected devices rebuilds the whole list from the remaining
treeview rows: each surviving record is renumbered with id equal to its new
position plus one, its password is replaced by the session-wide password
field, its enable password and port keys are dropped, and the displayed
columns are carried over in order — so surviving records are in general not
left unchanged, as the concrete instance shows. -/
theorem c9_delete_rebuilds (devices : List Device) (deleted : Nat → Bool)
    (pw : String) :
    (delete_device devices deleted pw).length =
      (remaining_devices devices deleted).length ∧
    (delete_device devices deleted pw).map Device.id =
      (List.range (remaining_devices devices deleted).length).map (· + 1) ∧
    (∀ d ∈ delete_device devices deleted pw,
      d.password = some pw ∧ d.enable = none ∧ d.port = none) ∧
    (delete_device devices deleted pw).map Device.ip =
      (remaining_devices devices deleted).map Device.ip ∧
    (delete_device devices deleted pw).map Device.hostname =
      (remaining_devices devices deleted).map Device.hostname ∧
    delete_device [devA, devCreds] (fun i => decide (i = 0)) "npw" ≠ [devCreds] := by
  refine ⟨?_, ?_, ?_, ?_, ?_, by decide⟩
  · simp [delete_device]
  · rw [delete_device, List.map_map]
    rw [show (Device.id ∘ fun p : Nat × TreeRow => rebuild_device p.1 p.2 pw) =
      (fun x : Nat => x + 1) ∘ Prod.fst from rfl]
    rw [← List.map_map, List.enum_map_fst]
    simp
  · intro d hd
    simp only [delete_device, List.mem_map] at hd
    obtain ⟨q, hq, rfl⟩ := hd
    exact ⟨rfl, rfl, rfl⟩
  · rw [delete_device, List.map_map]
    rw [show (Device.ip ∘ fun p : Nat × TreeRow => rebuild_device p.1 p.2 pw) =
      TreeRow.ip ∘ Prod.snd from rfl]
    rw [← List.map_map, List.enum_map_snd, List.map_map]
    rfl
  · rw [delete_device, List.map_map]
    rw [show (Device.hostname ∘ fun p : Nat × TreeRow => rebuild_device p.1 p.2 pw) =
      TreeRow.hostname ∘ Prod.snd from rfl]
    rw [← List.map_map, List.enum_map_snd, List.map_map]
    rfl

/-- Witness for C9 at a concrete deletion of the first of two devices. -/
theorem c9_delete_rebuilds_witness :
    rebuild_device 0 (tree_row_of devCreds) "npw" ∈
      delete_device [devA, devCreds] (fun i => decide (i = 0)) "npw" ∧
    (rebuild_device 0 (tree_row_of devCreds) "npw").password = some "npw" ∧
    (rebuild_device 0 (tree_row_of devCreds) "npw").enable = none ∧
    (rebuild_device 0 (tree_row_of devCreds) "npw").port = none :=
  ⟨by decide,
   (c9_delete_rebuilds [devA, devCreds] (fun i => decide (i = 0)) "npw").2.2.1
     (rebuild_device 0 (tree_row_of devCreds) "npw") (by decide)⟩

/-- C10: whenever demo mode is set or the live capability is absent, the
outcome does not depend on the config text, is Success with the demo success
message exactly when the draw exceeds one tenth and Failed with the demo
timeout message otherwise; a blank-and-comment-only config can therefore
still succeed, and the "No valid configuration lines to deploy" message can
only arise in live mode. -/
theorem c10_demo_mode (demo_mode netmiko_available : Bool) (draw : ℚ)
    (sb : SessionBehavior) (model : Option DeviceModel) (device : Device)
    (config config2 u p : String) :
    (demo_mode = true ∨ netmiko_available = false →
      deploy_to_device demo_mode netmiko_available draw sb model device config u p =
        deploy_to_device demo_mode netmiko_available draw sb model device config2 u p ∧
      (draw > mkRat 1 10 →
        (deploy_to_device demo_mode netmiko_available draw sb model device
          config u p).1.status = "Success" ∧
        (deploy_to_device demo_mode netmiko_available draw sb model device
          config u p).1.message = "Configuration deployed successfully (DEMO)") ∧
      (¬ draw > mkRat 1 10 →
        (deploy_to_device demo_mode netmiko_available draw sb model device
          config u p).1.status = "Failed" ∧
        (deploy_to_device demo_mode netmiko_available draw sb model device
          config u p).1.message = "Connection timeout (DEMO)")) ∧
    (deploy_to_device true true (mkRat 1 2) sb model device "!\n   " u p).1.status =
      "Success" ∧
    ((deploy_to_device demo_mode netmiko_available draw sb model device
        config u p).1.message = "No valid configuration lines to deploy" →
      demo_mode = false ∧ netmiko_available = true) := by
  refine ⟨?_, ?_, ?_⟩
  · intro h
    have hcond : (demo_mode || !netmiko_available) = true := by
      rcases h with h | h <;> simp [h]
    refine ⟨by simp [deploy_to_device, hcond], ?_, ?_⟩
    · intro hd
      simp [deploy_to_device, hcond, deployDemo, hd, mkResult]
    · intro hd
      simp [deploy_to_device, hcond, deployDemo, hd, mkResult]
  · have : (mkRat 1 2 > mkRat 1 10) := by decide
    simp [deploy_to_device, deployDemo, this, mkResult]
  · intro hmsg
    by_cases hcond : (demo_mode || !netmiko_available) = true
    · exfalso
      rw [deploy_to_device, if_pos hcond] at hmsg
      by_cases hd : draw > mkRat 1 10
      · rw [deployDemo, if_pos hd] at hmsg
        exact absurd hmsg (by simp [mkResult])
      · rw [deployDemo, if_neg hd] at hmsg
        exact absurd hmsg (by simp [mkResult])
    · constructor
      · by_contra hdm
        simp only [Bool.not_eq_false] at hdm
        simp [hdm] at hcond
      · by_contra hna
        simp only [Bool.not_eq_true] at hna
        simp [hna] at hcond

/-- Witness for C10 at concrete draws on both sides of the threshold. -/
theorem c10_demo_mode_witness :
    (deploy_to_device true true (mkRat 1 2) sbAllOk none devA "!\n" "" "").1.status =
      "Success" ∧
    (deploy_to_device true true (mkRat 1 20) sbAllOk none devA "!\n" "" "").1.status =
      "Failed" :=
  ⟨((c10_demo_mode true true (mkRat 1 2) sbAllOk none devA "!\n" "x" "" "").1
      (Or.inl rfl)).2.1 (by decide) |>.1,
   ((c10_demo_mode true true (mkRat 1 20) sbAllOk none devA "!\n" "x" "" "").1
      (Or.inl rfl)).2.2 (by decide) |>.1⟩

end NetDeploy
